import Mathlib

/-!
# Verification of the spider-lib crawling engine

A shallow embedding of the spider-lib repository.  The crate under `src/` only
re-exports the engine crates (`spider_core`, `spider_middleware`,
`spider_pipeline`, `spider_util`) through `src/src/prelude.rs`; what is present
in source form are the example spiders (`examples/quotes.rs`,
`examples/books.rs`, `examples/quotes_scraper.rs`) and the integration test
(`tests/basic_test.rs`).  The example spiders are embedded here directly from
their source; the engine subsystems (frontier admission with deduplication,
retry middleware, checkpointing) are modelled from the specification, and the
external collaborator crates (`scraper` for HTML/CSS selection, `url` for URL
resolution) are modelled by executable simplifications restricted to the
behaviour the examples exercise.
-/

namespace SpiderLib

/-- Error type modelling `spider_util::error::SpiderError` (re-exported through
`src/src/prelude.rs`; the defining crate is outside `src/`).  Only the variants
reachable from the example spiders are modelled: failure to convert a response
body to HTML, failure to build a CSS selector, and failure to resolve a URL. -/
inductive SpiderError where
  | htmlConversionError : SpiderError
  | selectorError (sel : String) : SpiderError
  | urlParseError (msg : String) : SpiderError
deriving DecidableEq, Repr

/-- Split a character list at every character satisfying `p`; `acc` holds the
current field reversed.  Structural, so concrete inputs evaluate by kernel
reduction. -/
def splitPredAux (p : Char → Bool) : List Char → List Char → List (List Char)
  | [], acc => [acc.reverse]
  | c :: cs, acc =>
    if p c then acc.reverse :: splitPredAux p cs []
    else splitPredAux p cs (c :: acc)

/-- Split a string at a single-character separator, keeping empty fields —
the behaviour of `str::split` on a `char` pattern (every separator this
embedding needs is a single character). -/
def splitChar (sep : Char) (s : String) : List String :=
  (splitPredAux (fun c => c = sep) s.data []).map String.mk

/-- Rust's `str::split_whitespace`: whitespace-separated tokens, empties
skipped. -/
def splitWhitespace (s : String) : List String :=
  ((splitPredAux (fun c => c.isWhitespace) s.data []).map String.mk).filter
    (fun t => t ≠ "")

/-- `str::starts_with` on a string pattern, computed on the character lists. -/
def strStartsWith (p s : String) : Bool :=
  p.data.isPrefixOf s.data

/-- Does the string end with the character `c`? -/
def strEndsWithChar (c : Char) (s : String) : Bool :=
  match s.data.getLast? with
  | some d => d = c
  | none => false

/-- Drop the last character of a string. -/
def strDropLast (s : String) : String :=
  String.mk s.data.dropLast

/-- Rust's `str::trim`: strip leading and trailing whitespace. -/
def strTrim (s : String) : String :=
  String.mk (((s.data.dropWhile Char.isWhitespace).reverse.dropWhile
    Char.isWhitespace).reverse)

/-- Rust's `str::to_lowercase`, character by character. -/
def strToLower (s : String) : String :=
  String.mk (s.data.map Char.toLower)

/-- A DOM node, modelling the tree produced by the external `scraper` crate's
HTML parser: an element with a tag name, an attribute list and children, or a
text node. -/
inductive Node where
  | element (tag : String) (attrs : List (String × String)) (children : List Node) : Node
  | text (s : String) : Node
deriving Repr

/-- The data of an element node relevant to selector matching. -/
structure ElemData where
  tag : String
  attrs : List (String × String)
deriving DecidableEq, Repr

/-- First attribute with the given name, as in the `scraper` crate's
`ElementRef::attr`. -/
def lookupAttr (attrs : List (String × String)) (name : String) : Option String :=
  (attrs.find? (fun p => p.1 = name)).map Prod.snd

/-- `ElementRef::attr` on a node (text nodes have no attributes). -/
def Node.attr : Node → String → Option String
  | .element _ attrs _, name => lookupAttr attrs name
  | .text _, _ => none

/-- The whitespace-separated class list of an element. -/
def classList (e : ElemData) : List String :=
  match lookupAttr e.attrs "class" with
  | some s => splitWhitespace s
  | none => []

/-- A compound selector: optional tag name, required classes, required
attributes (presence only, as in `a[href]`). -/
structure Compound where
  tag : Option String
  classes : List String
  attrPresent : List String
deriving DecidableEq, Repr

/-- A CSS selector over the fragment of the grammar the example spiders use:
compounds combined with the descendant combinator (space) and the child
combinator (`>`). -/
inductive Selector where
  | base (c : Compound) : Selector
  | child (p : Selector) (c : Compound) : Selector
  | desc (p : Selector) (c : Compound) : Selector
deriving DecidableEq, Repr

/-- Parse the tag/class part of a compound token (`article.product_pod`,
`.quote`, `th`, ...). -/
def parseBaseCompound (tok basePart : String) (attrsP : List String) :
    Except SpiderError Compound :=
  match splitChar '.' basePart with
  | [] => .error (.selectorError tok)
  | t :: classes =>
    if classes.all (fun c => c ≠ "") then
      .ok { tag := if t = "" then none else some t
            classes := classes
            attrPresent := attrsP }
    else
      .error (.selectorError tok)

/-- Parse one compound selector token such as `a[href]`, `article.product_pod`
or `.table.table-striped`; models the fragment of the CSS selector grammar
accepted by the external `scraper` crate (reached through `ToSelector` of
`spider_util::utils`, re-exported by `src/src/prelude.rs`). -/
def parseCompound (tok : String) : Except SpiderError Compound :=
  if tok = ">" then .error (.selectorError tok)
  else
    match splitChar '[' tok with
    | [basePart] => parseBaseCompound tok basePart []
    | [basePart, attrPart] =>
      if strEndsWithChar ']' attrPart && strDropLast attrPart ≠ "" then
        parseBaseCompound tok basePart [strDropLast attrPart]
      else
        .error (.selectorError tok)
    | _ => .error (.selectorError tok)

/-- Fold the remaining whitespace-separated tokens of a selector string onto an
already-parsed left part, `>` introducing a child combinator and juxtaposition
a descendant combinator. -/
def buildSelector (orig : String) : Selector → List String → Except SpiderError Selector
  | acc, [] => .ok acc
  | acc, ">" :: tok :: rest => do
    let c ← parseCompound tok
    buildSelector orig (.child acc c) rest
  | _, [">"] => .error (.selectorError orig)
  | acc, tok :: rest => do
    let c ← parseCompound tok
    buildSelector orig (.desc acc c) rest

/-- `str::to_selector` of `spider_util::utils::ToSelector` (crate outside
`src/`): compile a selector string, failing on strings outside the modelled
grammar, as `scraper::Selector::parse` fails on invalid selectors. -/
def toSelector (s : String) : Except SpiderError Selector :=
  match (splitChar ' ' s).filter (fun t => t ≠ "") with
  | [] => .error (.selectorError s)
  | t :: rest => do
    let c ← parseCompound t
    buildSelector s (.base c) rest

/-- Does element data `e` satisfy a compound selector? -/
def Compound.matchesElem (c : Compound) (e : ElemData) : Bool :=
  (match c.tag with
   | none => true
   | some t => e.tag = t) &&
  c.classes.all (fun cl => (classList e).contains cl) &&
  c.attrPresent.all (fun a => (lookupAttr e.attrs a).isSome)

/-- Does the element `e`, whose ancestor chain (nearest first) is `anc`, match
the selector?  The child combinator constrains the direct parent, the
descendant combinator some ancestor (each with its own remaining chain). -/
def matchesSel : Selector → ElemData → List ElemData → Bool
  | .base c, e, _ => c.matchesElem e
  | .child p c, e, anc =>
    c.matchesElem e &&
      (match anc with
       | [] => false
       | a :: rest => matchesSel p a rest)
  | .desc p c, e, anc =>
    c.matchesElem e &&
      anc.tails.any (fun t =>
        match t with
        | [] => false
        | a :: rest => matchesSel p a rest)

mutual
/-- All element nodes of the subtree rooted at `n` (the root included) that
match `sel`, in depth-first document order; `anc` is the ancestor chain of `n`,
nearest first.  Models the traversal of the `scraper` crate's `select`. -/
def selectFrom (sel : Selector) (anc : List ElemData) : Node → List Node
  | .text _ => []
  | .element t a cs =>
    (if matchesSel sel ⟨t, a⟩ anc then [Node.element t a cs] else []) ++
      selectFromList sel (⟨t, a⟩ :: anc) cs

/-- `selectFrom` over a list of sibling subtrees, in order. -/
def selectFromList (sel : Selector) (anc : List ElemData) : List Node → List Node
  | [] => []
  | n :: ns => selectFrom sel anc n ++ selectFromList sel anc ns
end

/-- `scraper::Html::select`: all matching elements of the document, in document
order. -/
def docSelect (doc : Node) (sel : Selector) : List Node :=
  selectFrom sel [] doc

/-- `scraper::ElementRef::select`: matching elements among the strict
descendants of `el`, in document order.  The ancestor context is truncated at
`el` (ancestors above the subtree are not visible to combinators), a
simplification adequate for the selectors the example spiders run on
sub-elements (`.text`, `.author`, `h3 a`, `.price_color`, `.star-rating`,
`th`, `td`). -/
def elemSelect (el : Node) (sel : Selector) : List Node :=
  match el with
  | .text _ => []
  | .element t a cs => selectFromList sel [⟨t, a⟩] cs

mutual
/-- `ElementRef::text().collect::<String>()`: concatenation of all text
descendants in document order. -/
def textOf : Node → String
  | .text s => s
  | .element _ _ cs => textOfList cs

/-- `textOf` over a list of sibling subtrees, in order. -/
def textOfList : List Node → String
  | [] => ""
  | n :: ns => textOf n ++ textOfList ns
end

/-- A URL, modelling the external `url` crate's `Url` by its string rendering
(the crate is outside this repository). -/
structure Url where
  value : String
deriving DecidableEq, Repr

/-- `Url::to_string`. -/
def Url.toStr (u : Url) : String := u.value

/-- The scheme-and-authority prefix of an absolute URL string such as
`https://host/a/b` (the part before the path). -/
def Url.origin (u : Url) : String :=
  String.intercalate "/" ((splitChar '/' u.value).take 3)

/-- The URL string up to and including the final `/` (the directory a relative
reference is resolved in). -/
def Url.directory (u : Url) : String :=
  String.intercalate "/" (splitChar '/' u.value).dropLast ++ "/"

/-- Model of the external `url` crate's `Url::join`: an href carrying its own
scheme replaces the base entirely but fails to parse when its authority is
empty (as `Url::parse("http://")` fails with an empty-host error); a
root-relative href is resolved against the base's origin; any other href is
resolved against the base's directory. -/
def Url.join (base : Url) (href : String) : Except SpiderError Url :=
  if strStartsWith "http://" href || strStartsWith "https://" href then
    if href = "http://" || href = "https://" then
      .error (.urlParseError href)
    else
      .ok ⟨href⟩
  else if strStartsWith "/" href then
    .ok ⟨base.origin ++ href⟩
  else
    .ok ⟨base.directory ++ href⟩

/-- `spider_util::request::Request` restricted to the field the examples use. -/
structure Request where
  url : Url
deriving DecidableEq, Repr

/-- `Request::new`. -/
def Request.new (u : Url) : Request := ⟨u⟩

/-- The body of a fetched response, as far as `Response::to_html` is concerned:
either bytes that convert to a parsed document, or bytes on which the
conversion fails. -/
inductive ResponseBody where
  | htmlBody (doc : Node) : ResponseBody
  | invalidBody : ResponseBody
deriving Repr

/-- `spider_util::response::Response` restricted to the fields the example
spiders use: the final URL and the body. -/
structure Response where
  url : Url
  body : ResponseBody
deriving Repr

/-- `Response::to_html` (crate outside `src/`): convert the body to a parsed
HTML document, failing when the body does not convert. -/
def Response.to_html : Response → Except SpiderError Node
  | ⟨_, .htmlBody doc⟩ => .ok doc
  | ⟨_, .invalidBody⟩ => .error .htmlConversionError

/-- `spider_util::item::ParseOutput`: ordered extracted items and ordered new
requests. -/
structure ParseOutput (T : Type) where
  items : List T
  requests : List Request

/-- `ParseOutput::new`. -/
def ParseOutput.new {T : Type} : ParseOutput T := ⟨[], []⟩

/-- `ParseOutput::add_item`: append one extracted item. -/
def ParseOutput.add_item {T : Type} (o : ParseOutput T) (it : T) : ParseOutput T :=
  { o with items := o.items ++ [it] }

/-- `ParseOutput::add_request`: append one new request. -/
def ParseOutput.add_request {T : Type} (o : ParseOutput T) (r : Request) : ParseOutput T :=
  { o with requests := o.requests ++ [r] }

/-- `QuoteItem` of `examples/quotes.rs`. -/
structure QuoteItem where
  text : String
  author : String
deriving DecidableEq, Repr

/-- `QuotesSpiderState` of `examples/quotes.rs`; the `DashMap` visited set is
modelled as a list of keys, the atomic counter as a `Nat`. -/
structure QuotesSpiderState where
  page_count : Nat
  visited_urls : List String
deriving DecidableEq, Repr

/-- `QuotesSpiderState::increment_page_count`. -/
def QuotesSpiderState.increment_page_count (s : QuotesSpiderState) : QuotesSpiderState :=
  { s with page_count := s.page_count + 1 }

/-- `QuotesSpiderState::mark_url_visited`. -/
def QuotesSpiderState.mark_url_visited (s : QuotesSpiderState) (url : String) : QuotesSpiderState :=
  { s with visited_urls := s.visited_urls ++ [url] }

/-- The `for quote in html.select(...)` loop body of `QuotesSpider::parse`
(examples/quotes.rs lines 53-65): per `.quote` element, the collected text of
the first `.text` and first `.author` descendant (empty when absent), appended
as one item. -/
def quotesLoop (quotes : List Node) (out : ParseOutput QuoteItem) :
    Except SpiderError (ParseOutput QuoteItem) :=
  match quotes with
  | [] => .ok out
  | q :: rest => do
    let textSel ← toSelector ".text"
    let text := ((elemSelect q textSel).head?.map textOf).getD ""
    let authorSel ← toSelector ".author"
    let author := ((elemSelect q authorSel).head?.map textOf).getD ""
    quotesLoop rest (out.add_item { text := text, author := author })

/-- `QuotesSpider::parse` of `examples/quotes.rs` (lines 45-77).  The shared
state is threaded explicitly: the two state updates happen before the fallible
body conversion, exactly as in the source. -/
def QuotesSpider.parse (response : Response) (state : QuotesSpiderState) :
    QuotesSpiderState × Except SpiderError (ParseOutput QuoteItem) :=
  let state := state.increment_page_count
  let state := state.mark_url_visited response.url.toStr
  (state, do
    let html ← response.to_html
    let output : ParseOutput QuoteItem := ParseOutput.new
    let quoteSel ← toSelector ".quote"
    let output ← quotesLoop (docSelect html quoteSel) output
    let nextSel ← toSelector ".next > a[href]"
    match (docSelect html nextSel).head?.bind (fun a => a.attr "href") with
    | some nextHref => do
      let nextUrl ← response.url.join nextHref
      pure (output.add_request (Request.new nextUrl))
    | none => pure output)

/-- `BookItem` of `examples/books.rs` (lines 7-17). -/
structure BookItem where
  title : String
  price : String
  rating : String
  availability : String
  upc : String
  tax : String
  reviews : String
  stock : String
deriving DecidableEq, Repr

/-- `BooksSpiderState` of `examples/books.rs`; the `DashMap` visited set is
modelled as a list of keys, the atomic counters as `Nat`s. -/
structure BooksSpiderState where
  page_count : Nat
  book_count : Nat
  visited_urls : List String
deriving DecidableEq, Repr

/-- `BooksSpiderState::increment_page_count`. -/
def BooksSpiderState.increment_page_count (s : BooksSpiderState) : BooksSpiderState :=
  { s with page_count := s.page_count + 1 }

/-- `BooksSpiderState::increment_book_count`. -/
def BooksSpiderState.increment_book_count (s : BooksSpiderState) : BooksSpiderState :=
  { s with book_count := s.book_count + 1 }

/-- `BooksSpiderState::mark_url_visited`. -/
def BooksSpiderState.mark_url_visited (s : BooksSpiderState) (url : String) : BooksSpiderState :=
  { s with visited_urls := s.visited_urls ++ [url] }

/-- The four detail-table fields accumulated by the `.table.table-striped tr`
loop of `BooksSpider::parse` (examples/books.rs lines 100-122). -/
structure TableFields where
  upc : String
  tax : String
  reviews : String
  availability : String
deriving DecidableEq, Repr

/-- The detail-table row loop of `BooksSpider::parse` (examples/books.rs lines
106-122): rows with both a `th` and a `td` assign the trimmed `td` text to the
field selected by the trimmed, lowercased `th` text. -/
def tableLoop (rows : List Node) (acc : TableFields) : Except SpiderError TableFields :=
  match rows with
  | [] => .ok acc
  | row :: rest => do
    let thSel ← toSelector "th"
    let tdSel ← toSelector "td"
    match (elemSelect row thSel).head?, (elemSelect row tdSel).head? with
    | some labelElem, some valueElem =>
      let label := strToLower (strTrim (textOf labelElem))
      let value := strTrim (textOf valueElem)
      let acc :=
        if label = "upc" then { acc with upc := value }
        else if label = "tax" then { acc with tax := value }
        else if label = "number of reviews" then { acc with reviews := value }
        else if label = "availability" then { acc with availability := value }
        else acc
      tableLoop rest acc
    | _, _ => tableLoop rest acc

/-- The book-detail branch of `BooksSpider::parse` (examples/books.rs lines
70-133): extract title, price, rating and the table fields, and append exactly
one `BookItem` whose `stock` field is initialized to the empty string. -/
def booksDetail (html : Node) (out : ParseOutput BookItem) :
    Except SpiderError (ParseOutput BookItem) := do
  let h1Sel ← toSelector ".product_main h1"
  let title := strTrim (((docSelect html h1Sel).head?.map textOf).getD "")
  let priceSel ← toSelector ".price_color"
  let price := strTrim (((docSelect html priceSel).head?.map textOf).getD "")
  let ratingSel ← toSelector ".star-rating"
  let rating :=
    match (docSelect html ratingSel).head?.bind (fun e => e.attr "class") with
    | some cls => ((splitWhitespace cls).find? (fun c => c ≠ "star-rating")).getD ""
    | none => ""
  let tableSel ← toSelector ".table.table-striped tr"
  let fields ← tableLoop (docSelect html tableSel) ⟨"", "", "", ""⟩
  pure (out.add_item
    { title := title
      price := price
      rating := rating
      availability := fields.availability
      upc := fields.upc
      tax := fields.tax
      reviews := fields.reviews
      stock := "" })

/-- The listing-page loop of `BooksSpider::parse` over `article.product_pod`
matches (examples/books.rs lines 138-180): per pod, extract (and discard)
title, price and rating, follow the `h3 a` link's href — joined against the
response URL, a failing join aborting the whole parse — and increment the book
counter.  The counter increment comes after the join, so a pod whose join
fails is not counted. -/
def booksListingLoop (response : Response) (pods : List Node)
    (state : BooksSpiderState) (out : ParseOutput BookItem) :
    BooksSpiderState × Except SpiderError (ParseOutput BookItem) :=
  match pods with
  | [] => (state, .ok out)
  | pod :: rest =>
    let step : Except SpiderError (Option Url) := do
      let h3aSel ← toSelector "h3 a"
      let _title := ((elemSelect pod h3aSel).head?.bind (fun a => a.attr "title")).getD ""
      let priceSel ← toSelector ".price_color"
      let _price := ((elemSelect pod priceSel).head?.map textOf).getD ""
      let ratingSel ← toSelector ".star-rating"
      let ratingClass := ((elemSelect pod ratingSel).head?.bind (fun e => e.attr "class")).getD ""
      let _rating := ((splitWhitespace ratingClass).find? (fun c => c ≠ "star-rating")).getD ""
      let linkSel ← toSelector "h3 a"
      match (elemSelect pod linkSel).head?.bind (fun a => a.attr "href") with
      | some bookLink => do
        let bookUrl ← response.url.join bookLink
        pure (some bookUrl)
      | none => pure none
    match step with
    | .error e => (state, .error e)
    | .ok none => booksListingLoop response rest state.increment_book_count out
    | .ok (some u) =>
      booksListingLoop response rest state.increment_book_count
        (out.add_request (Request.new u))

/-- The pagination tail of the listing branch of `BooksSpider::parse`
(examples/books.rs lines 183-190): one further request for the `.next >
a[href]` link when present. -/
def booksPagination (response : Response) (html : Node) (out : ParseOutput BookItem) :
    Except SpiderError (ParseOutput BookItem) := do
  let nextSel ← toSelector ".next > a[href]"
  match (docSelect html nextSel).head?.bind (fun a => a.attr "href") with
  | some nextHref => do
    let nextUrl ← response.url.join nextHref
    pure (out.add_request (Request.new nextUrl))
  | none => pure out

/-- `BooksSpider::parse` of `examples/books.rs` (lines 60-194).  The shared
state is threaded explicitly; the branch on the presence of a `.product_main`
element mirrors lines 69 and 136, and `increment_book_count` in the detail
branch comes after the item is appended (line 135). -/
def BooksSpider.parse (response : Response) (state : BooksSpiderState) :
    BooksSpiderState × Except SpiderError (ParseOutput BookItem) :=
  let state := state.increment_page_count
  let state := state.mark_url_visited response.url.toStr
  match response.to_html with
  | .error e => (state, .error e)
  | .ok html =>
    match toSelector ".product_main" with
    | .error e => (state, .error e)
    | .ok pmSel =>
      if ((docSelect html pmSel).head?).isSome then
        match booksDetail html ParseOutput.new with
        | .error e => (state, .error e)
        | .ok output => (state.increment_book_count, .ok output)
      else
        match toSelector "article.product_pod" with
        | .error e => (state, .error e)
        | .ok podSel =>
          match booksListingLoop response (docSelect html podSel) state ParseOutput.new with
          | (state, .error e) => (state, .error e)
          | (state, .ok output) =>
            match booksPagination response html output with
            | .error e => (state, .error e)
            | .ok output => (state, .ok output)

/-- `TestItem` of `tests/basic_test.rs`. -/
structure TestItem where
  title : String
deriving DecidableEq, Repr

/-- `TestSpiderState` of `tests/basic_test.rs`. -/
structure TestSpiderState where
  page_count : Nat
  visited_urls : List String
deriving DecidableEq, Repr

/-- `TestSpiderState::increment_page_count`. -/
def TestSpiderState.increment_page_count (s : TestSpiderState) : TestSpiderState :=
  { s with page_count := s.page_count + 1 }

/-- `TestSpiderState::mark_url_visited`. -/
def TestSpiderState.mark_url_visited (s : TestSpiderState) (url : String) : TestSpiderState :=
  { s with visited_urls := s.visited_urls ++ [url] }

/-- `TestSpider::parse` of `tests/basic_test.rs` (lines 45-60): update the
state, convert the body, and emit one item holding the text of the first
`title` element when present. -/
def TestSpider.parse (response : Response) (state : TestSpiderState) :
    TestSpiderState × Except SpiderError (ParseOutput TestItem) :=
  let state := state.increment_page_count
  let state := state.mark_url_visited response.url.toStr
  (state, do
    let html ← response.to_html
    let output : ParseOutput TestItem := ParseOutput.new
    let titleSel ← toSelector "title"
    match (docSelect html titleSel).head? with
    | some titleElem =>
      let title := textOf titleElem
      pure (output.add_item { title := title })
    | none => pure output)

/-- The compiled form of `.quote`. -/
def selQuote : Selector := .base ⟨none, ["quote"], []⟩

/-- The compiled form of `.text`. -/
def selText : Selector := .base ⟨none, ["text"], []⟩

/-- The compiled form of `.author`. -/
def selAuthor : Selector := .base ⟨none, ["author"], []⟩

/-- The compiled form of `.next > a[href]`. -/
def selNextA : Selector := .child (.base ⟨none, ["next"], []⟩) ⟨some "a", [], ["href"]⟩

/-- The compiled form of `title`. -/
def selTitleTag : Selector := .base ⟨some "title", [], []⟩

/-- The compiled form of `.product_main`. -/
def selProductMain : Selector := .base ⟨none, ["product_main"], []⟩

/-- The compiled form of `.product_main h1`. -/
def selProductMainH1 : Selector := .desc (.base ⟨none, ["product_main"], []⟩) ⟨some "h1", [], []⟩

/-- The compiled form of `.price_color`. -/
def selPriceColor : Selector := .base ⟨none, ["price_color"], []⟩

/-- The compiled form of `.star-rating`. -/
def selStarRating : Selector := .base ⟨none, ["star-rating"], []⟩

/-- The compiled form of `.table.table-striped tr`. -/
def selTableTr : Selector := .desc (.base ⟨none, ["table", "table-striped"], []⟩) ⟨some "tr", [], []⟩

/-- The compiled form of `th`. -/
def selTh : Selector := .base ⟨some "th", [], []⟩

/-- The compiled form of `td`. -/
def selTd : Selector := .base ⟨some "td", [], []⟩

/-- The compiled form of `article.product_pod`. -/
def selPod : Selector := .base ⟨some "article", ["product_pod"], []⟩

/-- The compiled form of `h3 a`. -/
def selH3A : Selector := .desc (.base ⟨some "h3", [], []⟩) ⟨some "a", [], []⟩

/-- The quote item the specification ascribes to one `.quote` element: the
collected text of its first `.text` and first `.author` descendant, the empty
string when absent. -/
def quoteItemOf (q : Node) : QuoteItem :=
  { text := ((elemSelect q selText).head?.map textOf).getD ""
    author := ((elemSelect q selAuthor).head?.map textOf).getD "" }

/-- One quote item per `.quote` element of the document, in document order. -/
def quoteItemsOf (doc : Node) : List QuoteItem :=
  (docSelect doc selQuote).map quoteItemOf

/-- The href of the first `.next > a[href]` element of the document, when such
an element exists. -/
def nextHrefOf (doc : Node) : Option String :=
  (docSelect doc selNextA).head?.bind (fun a => a.attr "href")

/-- The pure accumulation computed by the detail-table loop (the loop body is
infallible once its selectors are compiled). -/
def tableFieldsOf : List Node → TableFields → TableFields
  | [], acc => acc
  | row :: rest, acc =>
    match (elemSelect row selTh).head?, (elemSelect row selTd).head? with
    | some labelElem, some valueElem =>
      let label := strToLower (strTrim (textOf labelElem))
      let value := strTrim (textOf valueElem)
      let acc :=
        if label = "upc" then { acc with upc := value }
        else if label = "tax" then { acc with tax := value }
        else if label = "number of reviews" then { acc with reviews := value }
        else if label = "availability" then { acc with availability := value }
        else acc
      tableFieldsOf rest acc
    | _, _ => tableFieldsOf rest acc

/-- The book item the detail branch of `BooksSpider::parse` extracts from a
detail document; its `stock` field is always the empty string. -/
def detailItemOf (doc : Node) : BookItem :=
  let fields := tableFieldsOf (docSelect doc selTableTr) ⟨"", "", "", ""⟩
  { title := strTrim (((docSelect doc selProductMainH1).head?.map textOf).getD "")
    price := strTrim (((docSelect doc selPriceColor).head?.map textOf).getD "")
    rating :=
      match (docSelect doc selStarRating).head?.bind (fun e => e.attr "class") with
      | some cls => ((splitWhitespace cls).find? (fun c => c ≠ "star-rating")).getD ""
      | none => ""
    availability := fields.availability
    upc := fields.upc
    tax := fields.tax
    reviews := fields.reviews
    stock := "" }

/-- The href of the `h3 a` link of one listing pod, when present. -/
def podHrefOf (pod : Node) : Option String :=
  (elemSelect pod selH3A).head?.bind (fun a => a.attr "href")

/-- The hrefs of all `article.product_pod` elements of a listing document that
carry an `h3 a` link with an href, in document order. -/
def podHrefsOf (doc : Node) : List String :=
  (docSelect doc selPod).filterMap podHrefOf

/-- Join every href of the list against the base URL, failing on the first
href that does not resolve. -/
def joinAll (base : Url) : List String → Except SpiderError (List Url)
  | [] => .ok []
  | h :: rest => do
    let u ← base.join h
    let us ← joinAll base rest
    pure (u :: us)

namespace Engine

/-- Modelled from the spec: `DedupKey` (§3) — the canonical fingerprint of a
`FetchRequest` (normalized locator, method, body hash).  The defining crate
`spider_core` is only re-exported by `src/src/prelude.rs`, not present in
`src/`. -/
structure DedupKey where
  locator : String
  method : String
  bodyHash : Nat
deriving DecidableEq, Repr

/-- Modelled from the spec: `FetchRequest` (§3), restricted to the fields the
engine-level claims mention — target locator, method, body hash and the retry
count, the only field mutable after creation. -/
structure FetchRequest where
  locator : String
  method : String
  bodyHash : Nat
  retry_count : Nat
deriving DecidableEq, Repr

/-- Modelled from the spec (§3): the dedup key of a request — its normalized
locator, method and body hash; the retry count is not part of the key. -/
def dedupKey (r : FetchRequest) : DedupKey :=
  ⟨r.locator, r.method, r.bodyHash⟩

/-- Modelled from the spec: `Stats` (§3) — counters for requests scheduled,
succeeded, failed, retried and items scraped/deduplicated, plus the counter
for duplicates dropped at enqueue time (§4.1 "duplicates are dropped and
counted"). -/
structure Stats where
  requests_scheduled : Nat
  requests_succeeded : Nat
  requests_failed : Nat
  requests_retried : Nat
  items_scraped : Nat
  items_deduplicated : Nat
  duplicates_dropped : Nat
deriving DecidableEq, Repr

/-- All counters at zero. -/
def Stats.zero : Stats := ⟨0, 0, 0, 0, 0, 0, 0⟩

/-- Modelled from the spec: the engine state the claims are about — the
frontier's pending queue (a single priority class, FIFO per §4.1), the
in-flight requests, the dedup key set, the stats and the records visited so
far. -/
structure EngineState where
  pending : List FetchRequest
  inflight : List FetchRequest
  dedup : List DedupKey
  stats : Stats
  records : List String
deriving DecidableEq, Repr

/-- The state at crawl start: everything empty. -/
def EngineState.initial : EngineState := ⟨[], [], [], Stats.zero, []⟩

/-- Modelled from the spec: `Frontier::enqueue` with duplicate suppression
(§4.1) — before admitting a request, its `DedupKey` is checked against the
dedup index; a duplicate is dropped and counted, never queued; otherwise the
key is inserted and the request appended to the queue. -/
def enqueue (st : EngineState) (r : FetchRequest) : EngineState :=
  if st.dedup.contains (dedupKey r) then
    { st with stats := { st.stats with
        duplicates_dropped := st.stats.duplicates_dropped + 1 } }
  else
    { st with
      pending := st.pending ++ [r]
      dedup := st.dedup ++ [dedupKey r]
      stats := { st.stats with
        requests_scheduled := st.stats.requests_scheduled + 1 } }

/-- Modelled from the spec: the `RetryMiddleware` contract (§4.2, re-exported
by `src/src/prelude.rs` line 50) — on a transient transport failure the
original request is re-enqueued with an incremented retry count, up to the
configured maximum; exceeding the maximum surfaces the failure to stats and
drops the request.  The retry re-enqueue goes directly back onto the queue:
the request's key is already in the dedup index. -/
def handleFailure (retry_limit : Nat) (st : EngineState) (r : FetchRequest) : EngineState :=
  if r.retry_count < retry_limit then
    { st with
      pending := st.pending ++ [{ r with retry_count := r.retry_count + 1 }]
      stats := { st.stats with
        requests_retried := st.stats.requests_retried + 1 } }
  else
    { st with stats := { st.stats with
        requests_failed := st.stats.requests_failed + 1 } }

/-- Modelled from the spec: the fetch/parse loop (§4.3-§4.4), sequentialized —
dequeue the head request, make one fetch attempt through the transport; on
success record the parse output's records and enqueue its new requests (subject
to dedup), on transient failure hand the request to the retry logic.  Returns
the final state and the total number of fetch attempts made before the fuel
ran out or the frontier drained. -/
def run (retry_limit : Nat) (transport : FetchRequest → Bool)
    (parseFn : FetchRequest → List String × List FetchRequest) :
    Nat → EngineState → EngineState × Nat
  | 0, st => (st, 0)
  | fuel + 1, st =>
    match st.pending with
    | [] => (st, 0)
    | r :: rest =>
      let st := { st with pending := rest }
      if transport r then
        let out := parseFn r
        let st := { st with
          stats := { st.stats with
            requests_succeeded := st.stats.requests_succeeded + 1
            items_scraped := st.stats.items_scraped + out.1.length }
          records := st.records ++ out.1 }
        let st := out.2.foldl enqueue st
        let res := run retry_limit transport parseFn fuel st
        (res.1, res.2 + 1)
      else
        let st := handleFailure retry_limit st r
        let res := run retry_limit transport parseFn fuel st
        (res.1, res.2 + 1)

/-- Modelled from the spec: `Checkpoint` (§3, §4.6; re-exported by
`src/src/prelude.rs` line 88) — a serializable snapshot of frontier contents,
dedup key set and stats, with a monotonic sequence number. -/
structure Checkpoint where
  seq : Nat
  frontier_entries : List FetchRequest
  dedup_keys : List DedupKey
  stats : Stats
deriving DecidableEq, Repr

/-- Modelled from the spec (§4.6): `snapshot()` captures the current frontier
contents — the in-flight markers followed by the pending entries — the dedup
key set and the stats. -/
def snapshot (st : EngineState) (seq : Nat) : Checkpoint :=
  ⟨seq, st.inflight ++ st.pending, st.dedup, st.stats⟩

/-- Modelled from the spec (§4.6): `restore(Checkpoint)` re-seeds the frontier
and the dedup index before the worker pools start; every snapshotted entry —
in-flight ones included — is pending again, so in-flight work is re-fetched. -/
def restore (c : Checkpoint) : EngineState :=
  { pending := c.frontier_entries
    inflight := []
    dedup := c.dedup_keys
    stats := c.stats
    records := [] }

/-- Continuing a crawl from `st`, sequentialized: in-flight work completes
first, then pending work. -/
def resumePoint (st : EngineState) : EngineState :=
  { st with pending := st.inflight ++ st.pending, inflight := [] }

/-- The records the engine visits from state `st` onwards (records already
emitted not counted), given the fuel. -/
def visitedRecords (retry_limit : Nat) (transport : FetchRequest → Bool)
    (parseFn : FetchRequest → List String × List FetchRequest)
    (fuel : Nat) (st : EngineState) : List String :=
  (run retry_limit transport parseFn fuel (resumePoint { st with records := [] })).1.records

end Engine

/-- Is a fallible result an error (Rust's `Result::is_err`)? -/
def isErr {ε α : Type} : Except ε α → Bool
  | .error _ => true
  | .ok _ => false

/-- Is a fallible result a success (Rust's `Result::is_ok`)? -/
def isOk {ε α : Type} : Except ε α → Bool
  | .error _ => false
  | .ok _ => true

/-- A small quotes page: two `.quote` elements and a `.next > a[href]`
pagination link. -/
def sampleQuoteDoc : Node :=
  .element "html" [] [
    .element "body" [] [
      .element "div" [("class", "quote")] [
        .element "span" [("class", "text")] [.text "q1"],
        .element "small" [("class", "author")] [.text "a1"]],
      .element "div" [("class", "quote")] [
        .element "span" [("class", "text")] [.text "q2"],
        .element "small" [("class", "author")] [.text "a2"]],
      .element "li" [("class", "next")] [
        .element "a" [("href", "/page/2/")] [.text "Next"]]]]

/-- A response delivering `sampleQuoteDoc` from the quotes start URL. -/
def sampleQuoteResp : Response :=
  ⟨⟨"https://quotes.toscrape.com/"⟩, .htmlBody sampleQuoteDoc⟩

/-- A quotes page whose pagination href `http://` fails to resolve against the
response URL. -/
def quotesJoinFailDoc : Node :=
  .element "html" [] [
    .element "li" [("class", "next")] [
      .element "a" [("href", "http://")] [.text "Next"]]]

/-- A response delivering `quotesJoinFailDoc`. -/
def quotesJoinFailResp : Response :=
  ⟨⟨"https://quotes.toscrape.com/"⟩, .htmlBody quotesJoinFailDoc⟩

/-- A response whose body fails the HTML conversion. -/
def invalidResp : Response :=
  ⟨⟨"https://httpbin.org/html"⟩, .invalidBody⟩

/-- A small book detail page: a `.product_main` block with title, price and
rating, and a striped details table. -/
def booksDetailDoc : Node :=
  .element "html" [] [
    .element "div" [("class", "product_main")] [
      .element "h1" [] [.text "  A Light in the Attic "],
      .element "p" [("class", "price_color")] [.text " £51.77 "],
      .element "p" [("class", "star-rating Three")] []],
    .element "table" [("class", "table table-striped")] [
      .element "tr" [] [
        .element "th" [] [.text "UPC"],
        .element "td" [] [.text " a897fe39b1053632 "]],
      .element "tr" [] [
        .element "th" [] [.text "Availability"],
        .element "td" [] [.text "In stock (22 available)"]],
      .element "tr" [] [
        .element "th" [] [.text "Number of reviews"],
        .element "td" [] [.text "0"]]]]

/-- A response delivering `booksDetailDoc`. -/
def booksDetailResp : Response :=
  ⟨⟨"https://books.toscrape.com/catalogue/a-light-in-the-attic_1000/index.html"⟩,
   .htmlBody booksDetailDoc⟩

/-- A small book listing page: two `article.product_pod` entries with `h3 a`
links and a pagination link. -/
def booksListingDoc : Node :=
  .element "html" [] [
    .element "article" [("class", "product_pod")] [
      .element "h3" [] [
        .element "a" [("href", "catalogue/a_1/index.html"), ("title", "A")] [.text "A"]],
      .element "p" [("class", "price_color")] [.text "£10.00"]],
    .element "article" [("class", "product_pod")] [
      .element "h3" [] [
        .element "a" [("href", "catalogue/b_2/index.html"), ("title", "B")] [.text "B"]]],
    .element "li" [("class", "next")] [
      .element "a" [("href", "catalogue/page-2.html")] [.text "next"]]]

/-- A response delivering `booksListingDoc` from the books start URL. -/
def booksListingResp : Response :=
  ⟨⟨"https://books.toscrape.com/"⟩, .htmlBody booksListingDoc⟩

/-- A listing page whose single pod's link href `http://` fails to resolve. -/
def booksJoinFailDoc : Node :=
  .element "html" [] [
    .element "article" [("class", "product_pod")] [
      .element "h3" [] [
        .element "a" [("href", "http://")] [.text "bad"]]]]

/-- A response delivering `booksJoinFailDoc`. -/
def booksJoinFailResp : Response :=
  ⟨⟨"https://books.toscrape.com/"⟩, .htmlBody booksJoinFailDoc⟩

/-- An engine state with one pending request and its key already in the dedup
index, as after one admission. -/
def demoState : Engine.EngineState :=
  ⟨[⟨"https://example.test/a", "GET", 0, 0⟩], [], [⟨"https://example.test/a", "GET", 0⟩],
    Engine.Stats.zero, []⟩

/-- The parse output of `BooksSpider::parse` on `booksListingResp`: no items,
three follow-up requests. -/
def booksListingOutput : ParseOutput BookItem :=
  ⟨[], [⟨⟨"https://books.toscrape.com/catalogue/a_1/index.html"⟩⟩,
        ⟨⟨"https://books.toscrape.com/catalogue/b_2/index.html"⟩⟩,
        ⟨⟨"https://books.toscrape.com/catalogue/page-2.html"⟩⟩]⟩

/-- The parse output of `BooksSpider::parse` on `booksDetailResp`: one item,
no requests. -/
def booksDetailOutput : ParseOutput BookItem :=
  ⟨[{ title := "A Light in the Attic"
      price := "£51.77"
      rating := "Three"
      availability := "In stock (22 available)"
      upc := "a897fe39b1053632"
      tax := ""
      reviews := "0"
      stock := "" }], []⟩

theorem toSelector_quote : toSelector ".quote" = .ok selQuote := rfl

theorem toSelector_text : toSelector ".text" = .ok selText := rfl

theorem toSelector_author : toSelector ".author" = .ok selAuthor := rfl

theorem toSelector_nextA : toSelector ".next > a[href]" = .ok selNextA := rfl

theorem toSelector_titleTag : toSelector "title" = .ok selTitleTag := rfl

theorem toSelector_productMain : toSelector ".product_main" = .ok selProductMain := rfl

theorem toSelector_productMainH1 : toSelector ".product_main h1" = .ok selProductMainH1 := rfl

theorem toSelector_priceColor : toSelector ".price_color" = .ok selPriceColor := rfl

theorem toSelector_starRating : toSelector ".star-rating" = .ok selStarRating := rfl

theorem toSelector_tableTr : toSelector ".table.table-striped tr" = .ok selTableTr := rfl

theorem toSelector_th : toSelector "th" = .ok selTh := rfl

theorem toSelector_td : toSelector "td" = .ok selTd := rfl

theorem toSelector_pod : toSelector "article.product_pod" = .ok selPod := rfl

theorem toSelector_h3a : toSelector "h3 a" = .ok selH3A := rfl

theorem quotesLoop_eq (quotes : List Node) (out : ParseOutput QuoteItem) :
    quotesLoop quotes out = .ok { out with items := out.items ++ quotes.map quoteItemOf } := by
  induction quotes generalizing out with
  | nil => simp [quotesLoop]
  | cons q rest ih =>
    simp [quotesLoop, toSelector_text, toSelector_author, Bind.bind, Except.bind, ih,
      ParseOutput.add_item, quoteItemOf]

theorem quotes_parse_eq (resp : Response) (st : QuotesSpiderState) (doc : Node)
    (hdoc : resp.to_html = .ok doc) :
    QuotesSpider.parse resp st =
      ({ st with page_count := st.page_count + 1
                 visited_urls := st.visited_urls ++ [resp.url.toStr] },
       match nextHrefOf doc with
       | none => .ok ⟨quoteItemsOf doc, []⟩
       | some href =>
         match resp.url.join href with
         | .ok u => .ok ⟨quoteItemsOf doc, [Request.new u]⟩
         | .error e => .error e) := by
  cases hn : nextHrefOf doc with
  | none =>
    simp only [nextHrefOf] at hn
    simp [QuotesSpider.parse, QuotesSpiderState.increment_page_count,
      QuotesSpiderState.mark_url_visited, hdoc, Bind.bind, Except.bind, Pure.pure, Except.pure,
      toSelector_quote, toSelector_nextA, quotesLoop_eq, ParseOutput.new,
      ParseOutput.add_request, quoteItemsOf, hn]
  | some href =>
    simp only [nextHrefOf] at hn
    cases hj : resp.url.join href with
    | ok u =>
      simp [QuotesSpider.parse, QuotesSpiderState.increment_page_count,
        QuotesSpiderState.mark_url_visited, hdoc, Bind.bind, Except.bind, Pure.pure, Except.pure,
        toSelector_quote, toSelector_nextA, quotesLoop_eq, ParseOutput.new,
        ParseOutput.add_request, quoteItemsOf, Request.new, hn, hj]
    | error e =>
      simp [QuotesSpider.parse, QuotesSpiderState.increment_page_count,
        QuotesSpiderState.mark_url_visited, hdoc, Bind.bind, Except.bind, Pure.pure, Except.pure,
        toSelector_quote, toSelector_nextA, quotesLoop_eq, ParseOutput.new,
        ParseOutput.add_request, quoteItemsOf, Request.new, hn, hj]

/-- C3 (amended): for every response whose body converts to HTML,
`QuotesSpider::parse` returns a `ParseOutput` with exactly one `QuoteItem` per
`.quote` element in document order — each item's text and author being the
collected text of the first `.text` and first `.author` descendant (empty when
absent) — and exactly one new request, the `.next > a[href]` element's href
joined against `response.url`, when such an element exists and the join
succeeds; no new requests when the element is absent; and an error (no
`ParseOutput` at all) when the element exists but the join fails. -/
theorem C3_quotes_parse_output (resp : Response) (st : QuotesSpiderState) (doc : Node)
    (hdoc : resp.to_html = .ok doc) :
    (nextHrefOf doc = none →
      (QuotesSpider.parse resp st).2 = .ok ⟨quoteItemsOf doc, []⟩) ∧
    (∀ href u, nextHrefOf doc = some href → resp.url.join href = .ok u →
      (QuotesSpider.parse resp st).2 = .ok ⟨quoteItemsOf doc, [Request.new u]⟩) ∧
    (∀ href e, nextHrefOf doc = some href → resp.url.join href = .error e →
      (QuotesSpider.parse resp st).2 = .error e) := by
  refine ⟨fun hn => ?_, fun href u hn hj => ?_, fun href e hn hj => ?_⟩ <;>
    simp [quotes_parse_eq resp st doc hdoc, hn]
  · simp [hj]
  · simp [hj]

/-- C3 as frozen is false: on this response the body converts to HTML and a
`.next > a[href]` element exists, yet `QuotesSpider::parse` returns an error
(the href `http://` does not join against the response URL), not a
`ParseOutput` with one new request. -/
theorem C3_quotes_counterexample :
    quotesJoinFailResp.to_html = .ok quotesJoinFailDoc ∧
    (nextHrefOf quotesJoinFailDoc).isSome = true ∧
    (QuotesSpider.parse quotesJoinFailResp ⟨0, []⟩).2 = .error (.urlParseError "http://") :=
  ⟨rfl, rfl, rfl⟩

/-- Witness for C3: on a concrete two-quote page with a pagination link the
parse output is exactly the described items and the single joined request. -/
theorem C3_quotes_parse_output_witness :
    sampleQuoteResp.to_html = .ok sampleQuoteDoc ∧
    (QuotesSpider.parse sampleQuoteResp ⟨0, []⟩).2 =
      .ok ⟨quoteItemsOf sampleQuoteDoc, [Request.new ⟨"https://quotes.toscrape.com/page/2/"⟩]⟩ :=
  ⟨rfl,
   (C3_quotes_parse_output sampleQuoteResp ⟨0, []⟩ sampleQuoteDoc rfl).2.1
     "/page/2/" ⟨"https://quotes.toscrape.com/page/2/"⟩ rfl rfl⟩

/-- C5: `QuotesSpider::parse` signals a per-item failure as an `Err` result,
and it errs exactly when converting the body to HTML fails, building one of
its CSS selectors fails, or joining the next-page href against the response
URL fails; in the error case no `ParseOutput` is returned. -/
theorem C5_quotes_error_iff (resp : Response) (st : QuotesSpiderState) :
    (isErr (QuotesSpider.parse resp st).2 = true ↔
      (isErr resp.to_html = true ∨
       (∃ s ∈ [".quote", ".text", ".author", ".next > a[href]"], isErr (toSelector s) = true) ∨
       (∃ doc href, resp.to_html = .ok doc ∧ nextHrefOf doc = some href ∧
         isErr (resp.url.join href) = true))) ∧
    (isErr (QuotesSpider.parse resp st).2 = true →
      ∀ out, (QuotesSpider.parse resp st).2 ≠ .ok out) := by
  have hsel : ¬ (∃ s ∈ [".quote", ".text", ".author", ".next > a[href]"],
      isErr (toSelector s) = true) := by decide
  refine ⟨?_, fun h out heq => by simp [heq, isErr] at h⟩
  obtain ⟨u, body⟩ := resp
  cases body with
  | invalidBody =>
    simp [QuotesSpider.parse, Response.to_html, Bind.bind, Except.bind, isErr,
      QuotesSpiderState.increment_page_count, QuotesSpiderState.mark_url_visited]
  | htmlBody doc =>
    have hdoc : (Response.mk u (.htmlBody doc)).to_html = .ok doc := rfl
    rw [quotes_parse_eq _ st doc hdoc]
    cases hn : nextHrefOf doc with
    | none =>
      simp [isErr, hsel, hdoc, hn, Response.to_html, toSelector_quote, toSelector_text,
        toSelector_author, toSelector_nextA]
    | some href =>
      cases hj : Url.join u href with
      | ok v =>
        simp [isErr, hsel, hdoc, hn, hj, Response.to_html, toSelector_quote, toSelector_text,
          toSelector_author, toSelector_nextA]
      | error e =>
        simp [isErr, hsel, hdoc, hn, hj, Response.to_html, toSelector_quote, toSelector_text,
          toSelector_author, toSelector_nextA]

/-- Witness for C5: on the concrete page whose next-href fails to join, the
characterization yields that the parse errs. -/
theorem C5_quotes_error_iff_witness :
    isErr (QuotesSpider.parse quotesJoinFailResp ⟨0, []⟩).2 = true :=
  (C5_quotes_error_iff quotesJoinFailResp ⟨0, []⟩).1.mpr
    (Or.inr (Or.inr ⟨quotesJoinFailDoc, "http://", rfl, rfl, rfl⟩))

/-- C8: `QuotesSpider::parse` and the test spider's parse mutate the shared
state before any fallible step — when the body fails to convert to HTML the
parse returns an error, yet the page counter has been incremented and the
response URL recorded as visited. -/
theorem C8_state_updated_before_failure (resp : Response) (qst : QuotesSpiderState)
    (tst : TestSpiderState) (h : isErr resp.to_html = true) :
    (isErr (QuotesSpider.parse resp qst).2 = true ∧
     (QuotesSpider.parse resp qst).1.page_count = qst.page_count + 1 ∧
     resp.url.toStr ∈ (QuotesSpider.parse resp qst).1.visited_urls) ∧
    (isErr (TestSpider.parse resp tst).2 = true ∧
     (TestSpider.parse resp tst).1.page_count = tst.page_count + 1 ∧
     resp.url.toStr ∈ (TestSpider.parse resp tst).1.visited_urls) := by
  obtain ⟨u, body⟩ := resp
  cases body with
  | htmlBody doc => simp [Response.to_html, isErr] at h
  | invalidBody =>
    simp [QuotesSpider.parse, TestSpider.parse, Response.to_html, Bind.bind, Except.bind,
      isErr, QuotesSpiderState.increment_page_count, QuotesSpiderState.mark_url_visited,
      TestSpiderState.increment_page_count, TestSpiderState.mark_url_visited]

/-- Witness for C8 on a concrete response whose body fails HTML conversion. -/
theorem C8_state_updated_witness :
    isErr invalidResp.to_html = true ∧
    ((isErr (QuotesSpider.parse invalidResp ⟨3, ["x"]⟩).2 = true ∧
      (QuotesSpider.parse invalidResp ⟨3, ["x"]⟩).1.page_count = 3 + 1 ∧
      invalidResp.url.toStr ∈ (QuotesSpider.parse invalidResp ⟨3, ["x"]⟩).1.visited_urls) ∧
     (isErr (TestSpider.parse invalidResp ⟨0, []⟩).2 = true ∧
      (TestSpider.parse invalidResp ⟨0, []⟩).1.page_count = 0 + 1 ∧
      invalidResp.url.toStr ∈ (TestSpider.parse invalidResp ⟨0, []⟩).1.visited_urls)) :=
  ⟨rfl, C8_state_updated_before_failure invalidResp ⟨3, ["x"]⟩ ⟨0, []⟩ rfl⟩

theorem tableLoop_eq (rows : List Node) (acc : TableFields) :
    tableLoop rows acc = .ok (tableFieldsOf rows acc) := by
  induction rows generalizing acc with
  | nil => simp [tableLoop, tableFieldsOf]
  | cons row rest ih =>
    simp only [tableLoop, tableFieldsOf, toSelector_th, toSelector_td, Bind.bind, Except.bind]
    cases (elemSelect row selTh).head? <;> cases (elemSelect row selTd).head? <;> simp [ih]

theorem booksDetail_eq (doc : Node) (out : ParseOutput BookItem) :
    booksDetail doc out = .ok (out.add_item (detailItemOf doc)) := by
  simp [booksDetail, detailItemOf, toSelector_productMainH1, toSelector_priceColor,
    toSelector_starRating, toSelector_tableTr, tableLoop_eq, Bind.bind, Except.bind,
    Pure.pure, Except.pure]

theorem booksListingLoop_join_ok (resp : Response) (pods : List Node)
    (st : BooksSpiderState) (out : ParseOutput BookItem) (us : List Url)
    (h : joinAll resp.url (pods.filterMap podHrefOf) = .ok us) :
    booksListingLoop resp pods st out =
      ({ st with book_count := st.book_count + pods.length },
       .ok { out with requests := out.requests ++ us.map Request.new }) := by
  induction pods generalizing st out us with
  | nil =>
    simp [joinAll] at h
    subst h
    simp [booksListingLoop]
  | cons pod rest ih =>
    cases hp : podHrefOf pod with
    | none =>
      have hp' := hp
      simp only [podHrefOf] at hp'
      simp only [List.filterMap_cons, hp] at h
      simp only [booksListingLoop, toSelector_h3a, toSelector_priceColor,
        toSelector_starRating, Bind.bind, Except.bind, Pure.pure, Except.pure, hp']
      rw [ih _ _ _ h]
      simp [BooksSpiderState.increment_book_count]
      omega
    | some href =>
      have hp' := hp
      simp only [podHrefOf] at hp'
      simp only [List.filterMap_cons, hp] at h
      simp only [joinAll, Bind.bind, Except.bind] at h
      cases hj : resp.url.join href with
      | error e => simp [hj] at h
      | ok u =>
        rw [hj] at h
        cases hrest : joinAll resp.url (rest.filterMap podHrefOf) with
        | error e => simp [hrest] at h
        | ok us' =>
          rw [hrest] at h
          simp only [Pure.pure, Except.pure, Except.ok.injEq] at h
          subst h
          simp only [booksListingLoop, toSelector_h3a, toSelector_priceColor,
            toSelector_starRating, Bind.bind, Except.bind, Pure.pure, Except.pure, hp', hj]
          rw [ih _ _ _ hrest]
          simp [BooksSpiderState.increment_book_count, ParseOutput.add_request]
          omega

theorem booksListingLoop_join_err (resp : Response) (pods : List Node)
    (st : BooksSpiderState) (out : ParseOutput BookItem) (e : SpiderError)
    (h : joinAll resp.url (pods.filterMap podHrefOf) = .error e) :
    (booksListingLoop resp pods st out).2 = .error e := by
  induction pods generalizing st out with
  | nil => simp [joinAll] at h
  | cons pod rest ih =>
    cases hp : podHrefOf pod with
    | none =>
      have hp' := hp
      simp only [podHrefOf] at hp'
      simp only [List.filterMap_cons, hp] at h
      simp only [booksListingLoop, toSelector_h3a, toSelector_priceColor,
        toSelector_starRating, Bind.bind, Except.bind, Pure.pure, Except.pure, hp']
      exact ih _ _ h
    | some href =>
      have hp' := hp
      simp only [podHrefOf] at hp'
      simp only [List.filterMap_cons, hp] at h
      simp only [joinAll, Bind.bind, Except.bind] at h
      cases hj : resp.url.join href with
      | error e' =>
        rw [hj] at h
        simp only [Except.error.injEq] at h
        subst h
        simp [booksListingLoop, toSelector_h3a, toSelector_priceColor,
          toSelector_starRating, Bind.bind, Except.bind, Pure.pure, Except.pure, hp', hj]
      | ok u =>
        rw [hj] at h
        cases hrest : joinAll resp.url (rest.filterMap podHrefOf) with
        | ok us' => rw [hrest] at h; simp [Pure.pure, Except.pure] at h
        | error e' =>
          rw [hrest] at h
          simp only [Except.error.injEq] at h
          subst h
          simp only [booksListingLoop, toSelector_h3a, toSelector_priceColor,
            toSelector_starRating, Bind.bind, Except.bind, Pure.pure, Except.pure, hp', hj]
          exact ih _ _ hrest

theorem booksPagination_eq (resp : Response) (html : Node) (out : ParseOutput BookItem) :
    booksPagination resp html out =
      match nextHrefOf html with
      | none => .ok out
      | some href =>
        match resp.url.join href with
        | .ok u => .ok (out.add_request (Request.new u))
        | .error e => .error e := by
  cases hn : nextHrefOf html with
  | none =>
    simp only [nextHrefOf] at hn
    simp [booksPagination, toSelector_nextA, Bind.bind, Except.bind, Pure.pure, Except.pure, hn]
  | some href =>
    simp only [nextHrefOf] at hn
    cases hj : resp.url.join href <;>
      simp [booksPagination, toSelector_nextA, Bind.bind, Except.bind, Pure.pure,
        Except.pure, hn, hj]



theorem books_parse_detail (resp : Response) (st : BooksSpiderState) (doc : Node)
    (hdoc : resp.to_html = .ok doc)
    (hpm : ((docSelect doc selProductMain).head?).isSome = true) :
    BooksSpider.parse resp st =
      ({ st with page_count := st.page_count + 1
                 book_count := st.book_count + 1
                 visited_urls := st.visited_urls ++ [resp.url.toStr] },
       .ok (ParseOutput.new.add_item (detailItemOf doc))) := by
  simp [BooksSpider.parse, hdoc, toSelector_productMain, hpm, booksDetail_eq,
    BooksSpiderState.increment_page_count, BooksSpiderState.mark_url_visited,
    BooksSpiderState.increment_book_count]

theorem books_parse_listing_ok (resp : Response) (st : BooksSpiderState) (doc : Node)
    (us : List Url) (hdoc : resp.to_html = .ok doc)
    (hpm : (docSelect doc selProductMain).head? = none)
    (hJ : joinAll resp.url (podHrefsOf doc) = .ok us) :
    BooksSpider.parse resp st =
      ({ st with page_count := st.page_count + 1
                 book_count := st.book_count + (docSelect doc selPod).length
                 visited_urls := st.visited_urls ++ [resp.url.toStr] },
       match nextHrefOf doc with
       | none => .ok ⟨[], us.map Request.new⟩
       | some href =>
         match resp.url.join href with
         | .ok u => .ok ⟨[], us.map Request.new ++ [Request.new u]⟩
         | .error e => .error e) := by
  simp only [podHrefsOf] at hJ
  simp only [BooksSpider.parse, hdoc, toSelector_productMain, hpm, toSelector_pod,
    Option.isSome_none, Bool.false_eq_true, if_false,
    BooksSpiderState.increment_page_count, BooksSpiderState.mark_url_visited]
  rw [booksListingLoop_join_ok _ _ _ _ _ hJ]
  simp only [booksPagination_eq]
  cases hn : nextHrefOf doc with
  | none => simp [ParseOutput.new, hn]
  | some href =>
    cases hj : resp.url.join href <;>
      simp [ParseOutput.new, ParseOutput.add_request, hn, hj]

theorem books_parse_listing_err (resp : Response) (st : BooksSpiderState) (doc : Node)
    (e : SpiderError) (hdoc : resp.to_html = .ok doc)
    (hpm : (docSelect doc selProductMain).head? = none)
    (hJ : joinAll resp.url (podHrefsOf doc) = .error e) :
    (BooksSpider.parse resp st).2 = .error e := by
  simp only [podHrefsOf] at hJ
  simp only [BooksSpider.parse, hdoc, toSelector_productMain, hpm, toSelector_pod,
    Option.isSome_none, Bool.false_eq_true, if_false,
    BooksSpiderState.increment_page_count, BooksSpiderState.mark_url_visited]
  have h2 := booksListingLoop_join_err resp (docSelect doc selPod)
    { st with page_count := st.page_count + 1
              visited_urls := st.visited_urls ++ [resp.url.toStr] } ParseOutput.new e hJ
  cases hL : booksListingLoop resp (docSelect doc selPod)
      { st with page_count := st.page_count + 1
                visited_urls := st.visited_urls ++ [resp.url.toStr] } ParseOutput.new with
  | mk st2 r2 =>
    rw [hL] at h2
    simp only at h2
    subst h2
    simp



/-- C4 (amended): for every response that converts to HTML,
`BooksSpider::parse` branches exclusively on the presence of a `.product_main`
element: if present it emits exactly one `BookItem` (fields read from the
detail page) and no new requests; if absent it emits zero items and — provided
every followed href joins successfully against `response.url` — one request
per `article.product_pod` element whose `h3 a` link has an href, plus one
further request exactly when a `.next > a[href]` link exists; a failing join
aborts the parse with an error instead. -/
theorem C4_books_parse_output (resp : Response) (st : BooksSpiderState) (doc : Node)
    (hdoc : resp.to_html = .ok doc) :
    (((docSelect doc selProductMain).head?).isSome = true →
      (BooksSpider.parse resp st).2 = .ok ⟨[detailItemOf doc], []⟩) ∧
    ((docSelect doc selProductMain).head? = none →
      (∀ us, joinAll resp.url (podHrefsOf doc) = .ok us →
        (nextHrefOf doc = none →
          (BooksSpider.parse resp st).2 = .ok ⟨[], us.map Request.new⟩) ∧
        (∀ href u, nextHrefOf doc = some href → resp.url.join href = .ok u →
          (BooksSpider.parse resp st).2 = .ok ⟨[], us.map Request.new ++ [Request.new u]⟩) ∧
        (∀ href e, nextHrefOf doc = some href → resp.url.join href = .error e →
          (BooksSpider.parse resp st).2 = .error e)) ∧
      (∀ e, joinAll resp.url (podHrefsOf doc) = .error e →
        (BooksSpider.parse resp st).2 = .error e)) := by
  refine ⟨fun hpm => ?_, fun hpm => ⟨fun us hJ => ⟨fun hn => ?_, fun href u hn hj => ?_,
    fun href e hn hj => ?_⟩, fun e hJ => books_parse_listing_err resp st doc e hdoc hpm hJ⟩⟩
  · simp [books_parse_detail resp st doc hdoc hpm, ParseOutput.new, ParseOutput.add_item]
  all_goals rw [books_parse_listing_ok resp st doc us hdoc hpm hJ]
  · simp [hn]
  · simp [hn, hj]
  · simp [hn, hj]

/-- C4 as frozen is false: this listing page (no `.product_main`) has one pod
whose link href `http://` fails to join, so `BooksSpider::parse` returns an
error rather than the one-request-per-pod output the claim promises. -/
theorem C4_books_counterexample :
    booksJoinFailResp.to_html = .ok booksJoinFailDoc ∧
    (docSelect booksJoinFailDoc selProductMain).head? = none ∧
    podHrefsOf booksJoinFailDoc = ["http://"] ∧
    isOk (BooksSpider.parse booksJoinFailResp ⟨0, 0, []⟩).2 = false :=
  ⟨rfl, rfl, rfl, rfl⟩

/-- Witness for C4 on a concrete listing page whose joins all succeed. -/
theorem C4_books_parse_output_witness :
    booksListingResp.to_html = .ok booksListingDoc ∧
    (docSelect booksListingDoc selProductMain).head? = none ∧
    joinAll booksListingResp.url (podHrefsOf booksListingDoc) =
      .ok [⟨"https://books.toscrape.com/catalogue/a_1/index.html"⟩,
           ⟨"https://books.toscrape.com/catalogue/b_2/index.html"⟩] ∧
    (BooksSpider.parse booksListingResp ⟨0, 0, []⟩).2 =
      .ok ⟨[], ([⟨"https://books.toscrape.com/catalogue/a_1/index.html"⟩,
                 ⟨"https://books.toscrape.com/catalogue/b_2/index.html"⟩] : List Url).map
                  Request.new ++
               [Request.new ⟨"https://books.toscrape.com/catalogue/page-2.html"⟩]⟩ :=
  ⟨rfl, rfl, rfl, by
    have h := (C4_books_parse_output booksListingResp ⟨0, 0, []⟩ booksListingDoc rfl).2 rfl
    exact (h.1 [⟨"https://books.toscrape.com/catalogue/a_1/index.html"⟩,
      ⟨"https://books.toscrape.com/catalogue/b_2/index.html"⟩] rfl).2.1
      "catalogue/page-2.html" ⟨"https://books.toscrape.com/catalogue/page-2.html"⟩ rfl rfl⟩

/-- C9: `book_count` does not equal the number of `BookItem`s emitted — on a
listing page (no `.product_main`) it grows by the number of
`article.product_pod` elements although zero items are emitted, and it grows
by one again when a detail page is parsed (which emits the single item), so a
book reached through a listing is counted twice for one item. -/
theorem C9_book_count_mismatch (resp : Response) (st : BooksSpiderState) (doc : Node)
    (out : ParseOutput BookItem) (hdoc : resp.to_html = .ok doc) :
    ((docSelect doc selProductMain).head? = none →
      (BooksSpider.parse resp st).2 = .ok out →
      out.items = [] ∧
      (BooksSpider.parse resp st).1.book_count = st.book_count + (docSelect doc selPod).length) ∧
    (((docSelect doc selProductMain).head?).isSome = true →
      (BooksSpider.parse resp st).2 = .ok out →
      out.items.length = 1 ∧
      (BooksSpider.parse resp st).1.book_count = st.book_count + 1) := by
  constructor
  · intro hpm hok
    cases hJ : joinAll resp.url (podHrefsOf doc) with
    | error e =>
      rw [books_parse_listing_err resp st doc e hdoc hpm hJ] at hok
      simp at hok
    | ok us =>
      rw [books_parse_listing_ok resp st doc us hdoc hpm hJ] at hok ⊢
      cases hn : nextHrefOf doc with
      | none =>
        simp [hn] at hok
        simp [← hok]
      | some href =>
        cases hj : resp.url.join href with
        | ok u =>
          simp [hn, hj] at hok
          simp [← hok]
        | error e =>
          simp [hn, hj] at hok
  · intro hpm hok
    rw [books_parse_detail resp st doc hdoc hpm] at hok ⊢
    simp at hok
    simp [← hok, ParseOutput.new, ParseOutput.add_item]

/-- C10: every `BookItem` emitted by `BooksSpider::parse` has its `stock`
field equal to the empty string; the field is declared but never populated. -/
theorem C10_stock_always_empty (resp : Response) (st : BooksSpiderState)
    (out : ParseOutput BookItem) (h : (BooksSpider.parse resp st).2 = .ok out) :
    ∀ item ∈ out.items, item.stock = "" := by
  obtain ⟨u, body⟩ := resp
  cases body with
  | invalidBody =>
    simp [BooksSpider.parse, Response.to_html, BooksSpiderState.increment_page_count,
      BooksSpiderState.mark_url_visited] at h
  | htmlBody doc =>
    have hdoc : (Response.mk u (.htmlBody doc)).to_html = .ok doc := rfl
    cases hpm : (docSelect doc selProductMain).head? with
    | some el =>
      rw [books_parse_detail _ st doc hdoc (by simp [hpm])] at h
      simp at h
      subst h
      simp [ParseOutput.new, ParseOutput.add_item, detailItemOf]
    | none =>
      cases hJ : joinAll u (podHrefsOf doc) with
      | error e =>
        have := books_parse_listing_err (Response.mk u (.htmlBody doc)) st doc e hdoc hpm hJ
        rw [h] at this
        simp at this
      | ok us =>
        rw [books_parse_listing_ok _ st doc us hdoc hpm hJ] at h
        cases hn : nextHrefOf doc with
        | none =>
          simp [hn] at h
          simp [← h]
        | some href =>
          cases hj : Url.join u href with
          | ok v =>
            simp [hn, hj] at h
            simp [← h]
          | error e =>
            simp [hn, hj] at h

/-- Witness for C9: a listing page with two pods emits no items while the
book counter grows by the number of pods. -/
theorem C9_book_count_witness :
    booksListingResp.to_html = .ok booksListingDoc ∧
    (docSelect booksListingDoc selProductMain).head? = none ∧
    (BooksSpider.parse booksListingResp ⟨0, 0, []⟩).2 = .ok booksListingOutput ∧
    (booksListingOutput.items = [] ∧
     (BooksSpider.parse booksListingResp ⟨0, 0, []⟩).1.book_count =
       0 + (docSelect booksListingDoc selPod).length) :=
  ⟨rfl, rfl, rfl,
   (C9_book_count_mismatch booksListingResp ⟨0, 0, []⟩ booksListingDoc
     booksListingOutput rfl).1 rfl rfl⟩

/-- Witness for C10 on a concrete detail page. -/
theorem C10_stock_witness :
    (BooksSpider.parse booksDetailResp ⟨0, 0, []⟩).2 = .ok booksDetailOutput ∧
    (∀ item ∈ booksDetailOutput.items, item.stock = "") :=
  ⟨rfl, C10_stock_always_empty booksDetailResp ⟨0, 0, []⟩ booksDetailOutput rfl⟩

/-- A run on an empty frontier makes no fetch attempt and leaves the state
unchanged, whatever the fuel. -/
theorem Engine.run_pending_nil (rl : Nat) (t : Engine.FetchRequest → Bool)
    (p : Engine.FetchRequest → List String × List Engine.FetchRequest)
    (fuel : Nat) (st : Engine.EngineState) (h : st.pending = []) :
    Engine.run rl t p fuel st = (st, 0) := by
  cases fuel with
  | zero => rfl
  | succ f => simp [Engine.run, h]

/-- C1: with the retry limit configured to 2 and a transport that always
fails, the engine makes exactly 3 fetch attempts for the request (initial plus
2 retries), after which the request is dropped (the frontier drains) and the
failure counter is incremented.  Modelled from the spec (the retry middleware
and engine loop are not under `src/`). -/
theorem C1_retry_limit_three_attempts (u m : String) (b : Nat)
    (parseFn : Engine.FetchRequest → List String × List Engine.FetchRequest)
    (fuel : Nat) (h : 3 ≤ fuel) :
    (Engine.run 2 (fun _ => false) parseFn fuel
        (Engine.enqueue Engine.EngineState.initial ⟨u, m, b, 0⟩)).2 = 3 ∧
    (Engine.run 2 (fun _ => false) parseFn fuel
        (Engine.enqueue Engine.EngineState.initial ⟨u, m, b, 0⟩)).1.stats.requests_failed = 1 ∧
    (Engine.run 2 (fun _ => false) parseFn fuel
        (Engine.enqueue Engine.EngineState.initial ⟨u, m, b, 0⟩)).1.pending = [] := by
  obtain ⟨f, rfl⟩ : ∃ f, fuel = f + 3 := ⟨fuel - 3, by omega⟩
  simp [Engine.run, Engine.enqueue, Engine.handleFailure, Engine.EngineState.initial,
    Engine.Stats.zero, Engine.dedupKey, Engine.run_pending_nil]

/-- Witness for C1 at fuel 3 and a concrete request. -/
theorem C1_retry_limit_three_attempts_witness :
    3 ≤ 3 ∧
    ((Engine.run 2 (fun _ => false) (fun _ => ([], [])) 3
        (Engine.enqueue Engine.EngineState.initial ⟨"https://example.test/a", "GET", 0, 0⟩)).2 = 3 ∧
    (Engine.run 2 (fun _ => false) (fun _ => ([], [])) 3
        (Engine.enqueue Engine.EngineState.initial
          ⟨"https://example.test/a", "GET", 0, 0⟩)).1.stats.requests_failed = 1 ∧
    (Engine.run 2 (fun _ => false) (fun _ => ([], [])) 3
        (Engine.enqueue Engine.EngineState.initial
          ⟨"https://example.test/a", "GET", 0, 0⟩)).1.pending = []) :=
  ⟨by norm_num,
   C1_retry_limit_three_attempts "https://example.test/a" "GET" 0 (fun _ => ([], [])) 3
     (by norm_num)⟩

/-- C2: enqueuing the same normalized request twice yields exactly one fetch
attempt — in general a request whose `DedupKey` is already in the dedup index
is dropped and counted by `enqueue` without touching the queue, and in the
two-enqueue scenario the queue holds one copy, the duplicate counter reads 1,
and a full run makes exactly one fetch attempt.  Modelled from the spec (the
frontier/dedup code is not under `src/`). -/
theorem C2_dedup_second_enqueue (u m : String) (b : Nat) (rl fuel : Nat) (h : 1 ≤ fuel) :
    (∀ (st : Engine.EngineState) (r : Engine.FetchRequest),
        st.dedup.contains (Engine.dedupKey r) = true →
        Engine.enqueue st r =
          { st with stats := { st.stats with
              duplicates_dropped := st.stats.duplicates_dropped + 1 } }) ∧
    (Engine.enqueue (Engine.enqueue Engine.EngineState.initial ⟨u, m, b, 0⟩)
        ⟨u, m, b, 0⟩).pending = [⟨u, m, b, 0⟩] ∧
    (Engine.enqueue (Engine.enqueue Engine.EngineState.initial ⟨u, m, b, 0⟩)
        ⟨u, m, b, 0⟩).stats.duplicates_dropped = 1 ∧
    (Engine.run rl (fun _ => true) (fun _ => ([], [])) fuel
        (Engine.enqueue (Engine.enqueue Engine.EngineState.initial ⟨u, m, b, 0⟩)
          ⟨u, m, b, 0⟩)).2 = 1 := by
  obtain ⟨f, rfl⟩ : ∃ f, fuel = f + 1 := ⟨fuel - 1, by omega⟩
  refine ⟨fun st r hmem => ?_, ?_, ?_, ?_⟩
  · have hm : Engine.dedupKey r ∈ st.dedup := by simpa using hmem
    simp [Engine.enqueue, hm]
  all_goals
    simp [Engine.run, Engine.enqueue, Engine.EngineState.initial, Engine.Stats.zero,
      Engine.dedupKey, Engine.run_pending_nil]

/-- Witness for C2 at a concrete request and fuel 1. -/
theorem C2_dedup_second_enqueue_witness :
    1 ≤ 1 ∧
    ((∀ (st : Engine.EngineState) (r : Engine.FetchRequest),
        st.dedup.contains (Engine.dedupKey r) = true →
        Engine.enqueue st r =
          { st with stats := { st.stats with
              duplicates_dropped := st.stats.duplicates_dropped + 1 } }) ∧
    (Engine.enqueue
        (Engine.enqueue Engine.EngineState.initial ⟨"https://example.test/a", "GET", 0, 0⟩)
        ⟨"https://example.test/a", "GET", 0, 0⟩).pending =
      [⟨"https://example.test/a", "GET", 0, 0⟩] ∧
    (Engine.enqueue
        (Engine.enqueue Engine.EngineState.initial ⟨"https://example.test/a", "GET", 0, 0⟩)
        ⟨"https://example.test/a", "GET", 0, 0⟩).stats.duplicates_dropped = 1 ∧
    (Engine.run 0 (fun _ => true) (fun _ => ([], [])) 1
        (Engine.enqueue
          (Engine.enqueue Engine.EngineState.initial ⟨"https://example.test/a", "GET", 0, 0⟩)
          ⟨"https://example.test/a", "GET", 0, 0⟩)).2 = 1) :=
  ⟨by norm_num, C2_dedup_second_enqueue "https://example.test/a" "GET" 0 0 1 (by norm_num)⟩

/-- C6: restoring a snapshot taken of any crawl state re-seeds the frontier
(in-flight markers included) and the dedup index such that the resumed crawl
visits a superset — here every record — of the records the continuous run
would have visited from that point.  Modelled from the spec (the checkpoint
code is not under `src/`). -/
theorem C6_checkpoint_superset (rl : Nat)
    (transport : Engine.FetchRequest → Bool)
    (parseFn : Engine.FetchRequest → List String × List Engine.FetchRequest)
    (fuel seq : Nat) (st : Engine.EngineState) (rec : String)
    (h : rec ∈ Engine.visitedRecords rl transport parseFn fuel st) :
    rec ∈ Engine.visitedRecords rl transport parseFn fuel
        (Engine.restore (Engine.snapshot st seq)) := by
  have key : Engine.resumePoint { Engine.restore (Engine.snapshot st seq) with records := [] } =
      Engine.resumePoint { st with records := [] } := by
    simp [Engine.resumePoint, Engine.restore, Engine.snapshot]
  unfold Engine.visitedRecords at h ⊢
  rw [key]
  exact h

/-- Witness for C6 on a one-request state whose parse emits record `A`. -/
theorem C6_checkpoint_superset_witness :
    "A" ∈ Engine.visitedRecords 2 (fun _ => true) (fun _ => (["A"], [])) 1 demoState ∧
    "A" ∈ Engine.visitedRecords 2 (fun _ => true) (fun _ => (["A"], [])) 1
        (Engine.restore (Engine.snapshot demoState 7)) :=
  ⟨by decide,
   C6_checkpoint_superset 2 (fun _ => true) (fun _ => (["A"], [])) 1 7 demoState "A" (by decide)⟩

end SpiderLib
